import Mathlib

/-!
Verification development for the InstaBio resilient capture-and-sync pipeline.

The definitions below are a shallow embedding of the repository code:
  - static/shared.js       (escapeHtml)
  - static/sw.js           (fetch routing, offline upload queue)
  - static/i18n.js         (language switching)
plus, where the component named by the specification is not present in the
repository sources (the chunk assembler and the durable chunk store live in
the recording page, which is absent), models written from the specification
text, marked as such in their doc comments.
-/

/- ── shared.js: escapeHtml ──────────────────────────────────────────── -/

/-- Escaping of one character of a DOM text node, as performed by reading
back div.innerHTML after assigning div.textContent in shared.js lines 11-16.
The HTML fragment serialization algorithm, in non-attribute mode, replaces
the character U+0026 AMPERSAND by "&amp;", U+00A0 NO-BREAK SPACE by "&nbsp;",
U+003C by "&lt;" and U+003E by "&gt;", and leaves every other character, in
particular both quote characters, unchanged. -/
def escapeHtmlChar (c : Char) : String :=
  if c = '&' then "&amp;"
  else if c = Char.ofNat 160 then "&nbsp;"
  else if c = '<' then "&lt;"
  else if c = '>' then "&gt;"
  else String.singleton c

/-- Serialization of a DOM text node holding the string s, character by
character. -/
def serializeTextNode (s : String) : String :=
  String.join (s.data.map escapeHtmlChar)

/-- Embedding of escapeHtml from static/shared.js lines 11-16.  The input
None stands for the javascript values undefined and null; together with the
empty string these are the falsy inputs on which the function returns the
empty string at once.  Any other string goes through the DOM text-node
round trip. -/
def escapeHtml (input : Option String) : String :=
  match input with
  | none => ""
  | some s => if s = "" then "" else serializeTextNode s

/-- Character replacement exactly as the claim words it: replace the
character U+0026 by "&amp;", U+003C by "&lt;" and U+003E by "&gt;", leave
every other character unchanged.  Written from the claim text, to be
compared with the embedding of the source. -/
def claimEscapeChar (c : Char) : String :=
  if c = '&' then "&amp;"
  else if c = '<' then "&lt;"
  else if c = '>' then "&gt;"
  else String.singleton c

/-- The whole-string transformation the claim describes. -/
def claimEscape (s : String) : String :=
  String.join (s.data.map claimEscapeChar)

/-- Character replacement of the amended claim: as the claim words it, plus
the replacement of U+00A0 NO-BREAK SPACE by "&nbsp;" that the DOM
serialization also performs. -/
def amendedEscapeChar (c : Char) : String :=
  if c = '&' then "&amp;"
  else if c = '<' then "&lt;"
  else if c = '>' then "&gt;"
  else if c = Char.ofNat 160 then "&nbsp;"
  else String.singleton c

/-- The whole-string transformation of the amended claim. -/
def amendedEscape (s : String) : String :=
  String.join (s.data.map amendedEscapeChar)

/- ── sw.js: fetch event routing ─────────────────────────────────────── -/

/-- The request data the fetch listener in static/sw.js lines 77-128
inspects: the URL pathname and the request mode. -/
structure FetchRequest where
  pathname : String
  mode : String
deriving DecidableEq

/-- The three ways the fetch listener can handle a request.  passthrough is
the early return without calling event.respondWith: the browser performs
the request with no service-worker involvement.  networkFirstCacheFallback
is the navigation branch: fetch from the network, and only on network
failure consult the cache.  cacheFirst is the final branch: answer from the
cache when a cached response exists, otherwise fetch and store a successful
basic 200 response into the cache. -/
inductive FetchDecision where
  | passthrough
  | networkFirstCacheFallback
  | cacheFirst
deriving DecidableEq

/-- Character-prefix test, the semantics of startsWith on strings. -/
def strStartsWith (s pre : String) : Bool :=
  pre.data.isPrefixOf s.data

/-- Embedding of the fetch listener dispatch in static/sw.js lines 77-128:
pathnames starting with "/api/" return early, navigations use network
first, everything else is cache first. -/
def handleFetch (r : FetchRequest) : FetchDecision :=
  if strStartsWith r.pathname "/api/" then FetchDecision.passthrough
  else if r.mode = "navigate" then FetchDecision.networkFirstCacheFallback
  else FetchDecision.cacheFirst

/-- Whether a handling strategy ever reads from the cache.  passthrough
never touches the cache; the navigation branch reads it as a fallback after
a network failure; the cache-first branch reads it up front. -/
def readsCache : FetchDecision → Bool
  | FetchDecision.passthrough => false
  | FetchDecision.networkFirstCacheFallback => true
  | FetchDecision.cacheFirst => true

/-- Whether a handling strategy ever writes a response into the cache.
Only the cache-first branch calls cache.put. -/
def writesCache : FetchDecision → Bool
  | FetchDecision.passthrough => false
  | FetchDecision.networkFirstCacheFallback => false
  | FetchDecision.cacheFirst => true

/- ── sw.js: offline upload queue ────────────────────────────────────── -/

/-- One record of the IndexedDB offlineQueue store, as consumed by
uploadQueuedChunks in static/sw.js lines 139-171.  The fields id (the
auto-incremented key), sessionUuid, blob, filename and token are the ones
the service worker reads.  The fields seq and checksum are the sequence
number and checksum of the referenced chunk.  Modelled from the spec: the
recording page that enqueues these records is not among the sources; the
specification says a Queue Entry references one sealed chunk, which carries
a monotonically increasing sequence number and a checksum.  The service
worker itself never reads these two fields. -/
structure QueueItem where
  id : Nat
  sessionUuid : String
  seq : Nat
  checksum : String
  filename : String
  blob : String
  token : String
deriving DecidableEq

/-- The upload request uploadQueuedChunks builds in static/sw.js lines
149-156: a POST to /api/session/{sessionUuid}/chunk with a bearer token
header and a multipart form holding the audio blob under its filename. -/
structure UploadRequest where
  method : String
  urlPath : String
  bearerToken : String
  formAudioBlob : String
  formAudioFilename : String
deriving DecidableEq

/-- Construction of the upload request from a queue record, from
static/sw.js lines 149-156.  Only sessionUuid, token, blob and filename
flow into the request. -/
def buildUploadRequest (item : QueueItem) : UploadRequest :=
  { method := "POST"
  , urlPath := "/api/session/" ++ item.sessionUuid ++ "/chunk"
  , bearerToken := item.token
  , formAudioBlob := item.blob
  , formAudioFilename := item.filename }

/-- A resolved fetch response as the service worker sees it: the HTTP
status, plus an optional acknowledgment body carrying a session id and a
sequence number.  The acknowledgment fields exist so that statements about
acknowledgments can be made; static/sw.js lines 158-163 never reads any
response body. -/
structure UploadResponse where
  status : Nat
  ackSessionId : Option String
  ackSeq : Option Nat
deriving DecidableEq

/-- The resp.ok test of the Fetch API: status in the range 200 to 299. -/
def respOk (r : UploadResponse) : Bool :=
  200 ≤ r.status && r.status < 300

/-- Outcome of one upload attempt for one queue record.  The environment
respond maps a request to none when fetch rejects (network error, caught by
the try block in static/sw.js lines 164-166) and to some response when it
resolves.  The service worker then consults only resp.ok, static/sw.js
line 158. -/
def attemptOk (respond : UploadRequest → Option UploadResponse)
    (item : QueueItem) : Bool :=
  match respond (buildUploadRequest item) with
  | none => false
  | some r => respOk r

/-- Deletion of the record with the given key from the store, as done by
delete(item.id) in static/sw.js line 161. -/
def deleteById (db : List QueueItem) (i : Nat) : List QueueItem :=
  db.filter (fun e => e.id != i)

/-- The loop of uploadQueuedChunks, static/sw.js lines 147-167: for each
record of the snapshot, attempt the upload; on an ok response delete the
record from the store; on a network error or a non-ok response do nothing
and continue with the next record.  Returns the list of requests attempted,
in order, and the final store contents. -/
def processQueueItems (respond : UploadRequest → Option UploadResponse) :
    List QueueItem → List QueueItem → List UploadRequest × List QueueItem
  | [], db => ([], db)
  | item :: rest, db =>
    let db2 := if attemptOk respond item then deleteById db item.id else db
    let out := processQueueItems respond rest db2
    (buildUploadRequest item :: out.1, out.2)

/-- Embedding of uploadQueuedChunks, static/sw.js lines 139-171: read the
snapshot of the offlineQueue store (getAll, in ascending key order), run
the loop, return the final store contents. -/
def uploadQueuedChunks (respond : UploadRequest → Option UploadResponse)
    (db : List QueueItem) : List QueueItem :=
  (processQueueItems respond db db).2

/-- The sequence of upload requests one run of uploadQueuedChunks issues,
in order. -/
def uploadAttempts (respond : UploadRequest → Option UploadResponse)
    (db : List QueueItem) : List UploadRequest :=
  (processQueueItems respond db db).1

/-- Keys of the snapshot records whose upload attempt came back ok; these
are the records the loop deletes. -/
def okIds (respond : UploadRequest → Option UploadResponse)
    (items : List QueueItem) : List Nat :=
  (items.filter (fun i => attemptOk respond i)).map QueueItem.id

/-- Repeated drain rounds: each background-sync wake event runs
uploadQueuedChunks once on whatever the store then holds, with whatever
network behaviour that round encounters. -/
def runSyncRounds (responds : List (UploadRequest → Option UploadResponse))
    (db : List QueueItem) : List QueueItem :=
  responds.foldl (fun d f => uploadQueuedChunks f d) db

/-- Modelled from the spec: the reconciliation behaviour the specification
describes, absent from the sources.  Given the highest sequence number the
remote endpoint has confirmed for the session (none when nothing is
confirmed), re-enqueue exactly the local chunks strictly above it.  Written
from the spec words, to be compared with what the service worker does. -/
def specReenqueue (chunks : List QueueItem) (highestConfirmed : Option Nat) :
    List QueueItem :=
  match highestConfirmed with
  | none => chunks
  | some n => chunks.filter (fun c => n < c.seq)

/- Concrete queue records and response environments used as test inputs. -/

/-- A concrete queue record for session "sess-1", chunk sequence 0. -/
def itemA : QueueItem :=
  { id := 1, sessionUuid := "sess-1", seq := 0, checksum := "ck-0"
  , filename := "chunk-0.webm", blob := "blobA", token := "tok" }

/-- A record agreeing with itemA on every field the service worker reads,
but with a different sequence number and checksum. -/
def itemB : QueueItem :=
  { id := 1, sessionUuid := "sess-1", seq := 1, checksum := "ck-1"
  , filename := "chunk-0.webm", blob := "blobA", token := "tok" }

/-- A second concrete record of session "sess-1", chunk sequence 1, with a
larger store key than itemA. -/
def itemC : QueueItem :=
  { id := 2, sessionUuid := "sess-1", seq := 1, checksum := "ck-1"
  , filename := "chunk-1.webm", blob := "blobB", token := "tok" }

/-- A record whose chunk sequence number is 3. -/
def itemS3 : QueueItem :=
  { id := 7, sessionUuid := "sess-9", seq := 3, checksum := "ck-3"
  , filename := "chunk-3.webm", blob := "blobS", token := "tok" }

/-- An environment in which every request resolves with a bare HTTP 200
carrying no acknowledgment body at all. -/
def respond200 : UploadRequest → Option UploadResponse :=
  fun _ => some { status := 200, ackSessionId := none, ackSeq := none }

/-- An environment in which every request resolves with HTTP 500. -/
def respond500 : UploadRequest → Option UploadResponse :=
  fun _ => some { status := 500, ackSessionId := none, ackSeq := none }

/- ── i18n.js: language switching ────────────────────────────────────── -/

/-- The five supported language codes, static/i18n.js line 16. -/
def SUPPORTED_LANGS : List String := ["en", "es", "zh", "hi", "ar"]

/-- The right-to-left language codes, static/i18n.js line 17. -/
def RTL_LANGS : List String := ["ar"]

/-- The engine state the claims speak about: the module-level current
language and the lang and dir attributes of the document element. -/
structure I18nState where
  currentLang : String
  docLang : String
  docDir : String
deriving DecidableEq

/-- The document-attribute part of applyTranslations, static/i18n.js lines
82-88: set the document lang to the current language and the direction to
"rtl" exactly when the current language is in RTL_LANGS, else "ltr". -/
def applyTranslations (s : I18nState) : I18nState :=
  { s with
    docLang := s.currentLang
  , docDir := if RTL_LANGS.contains s.currentLang then "rtl" else "ltr" }

/-- Embedding of setLanguage, static/i18n.js lines 99-105: an argument not
among the supported codes is replaced by "en"; the current language is set
and applyTranslations runs. -/
def setLanguage (lang : String) (s : I18nState) : I18nState :=
  let chosen := if SUPPORTED_LANGS.contains lang then lang else "en"
  applyTranslations { s with currentLang := chosen }

/-- The browser-language fallback of getPreferredLang, static/i18n.js
lines 37-39: the first two characters of navigator.language, lowercased,
with undefined treated as the empty string. -/
def browserLangOf (navLanguage : Option String) : String :=
  String.mk (((navLanguage.getD "").data.take 2).map Char.toLower)

/-- Embedding of getPreferredLang, static/i18n.js lines 33-40: a saved,
non-empty, supported code wins; otherwise a supported browser language;
otherwise "en". -/
def getPreferredLang (saved : Option String) (navLanguage : Option String) :
    String :=
  let savedVal := saved.getD ""
  if savedVal != "" && SUPPORTED_LANGS.contains savedVal then savedVal
  else if SUPPORTED_LANGS.contains (browserLangOf navLanguage) then
    browserLangOf navLanguage
  else "en"

/-- The auto-init at the bottom of static/i18n.js, lines 166-177, after it
has run to completion: it computes the preferred language and calls
setLanguage on it (directly, or from the DOMContentLoaded handler when the
document was still loading). -/
def autoInit (saved navLanguage : Option String) (s : I18nState) : I18nState :=
  setLanguage (getPreferredLang saved navLanguage) s

/-- The invariant of claim C10: the current language is a supported code
and the document direction is "rtl" exactly for Arabic. -/
def langInvariant (s : I18nState) : Prop :=
  s.currentLang ∈ SUPPORTED_LANGS ∧ (s.docDir = "rtl" ↔ s.currentLang = "ar")

/- ── Capture pipeline models written from the specification ─────────── -/

/-- State of an active recording, at one-second granularity: the elapsed
recording time, the durations of the chunks sealed to durable storage so
far, and the audio buffered toward the next chunk.  Modelled from the
spec: the Chunk Assembler and the recording page are not among the
sources; the specification says the assembler seals the buffer into a
fixed-duration chunk on each duration boundary with a synchronous durable
write. -/
structure CaptureState where
  elapsed : Nat
  sealedChunks : List Nat
  buffered : Nat
deriving DecidableEq

/-- Modelled from the spec: one second of capture.  When the buffer
reaches the configured chunk duration it is sealed as one chunk of that
duration and the buffer restarts empty; otherwise the buffer grows. -/
def chunkTick (d : Nat) (s : CaptureState) : CaptureState :=
  if s.buffered + 1 = d then
    { elapsed := s.elapsed + 1, sealedChunks := s.sealedChunks ++ [d], buffered := 0 }
  else
    { elapsed := s.elapsed + 1, sealedChunks := s.sealedChunks, buffered := s.buffered + 1 }

/-- Modelled from the spec: the capture state after recording for t seconds
with chunk duration d, starting from an empty session.  Killing the
process at instant t preserves exactly the sealed chunks of this state:
sealed chunks are durable and the in-memory buffer is lost. -/
def recordFor (d : Nat) : Nat → CaptureState
  | 0 => { elapsed := 0, sealedChunks := [], buffered := 0 }
  | t + 1 => chunkTick d (recordFor d t)

/-- Total duration of the sealed chunks, the audio that survives a kill. -/
def sealedDuration (s : CaptureState) : Nat :=
  s.sealedChunks.sum

/-- The operations of the contiguity property of claim C4. -/
inductive SessionOp where
  | seal
  | crash
  | restart
deriving DecidableEq

/-- Durable per-session chunk store.  Modelled from the spec: the durable
local store is not among the sources; the specification says sealing
assigns sequence numbers strictly in capture order and writes atomically,
so that after a crash a chunk is either fully persisted or absent. -/
structure SessionState where
  sealedSeqs : List Nat
  capturing : Bool
deriving DecidableEq

/-- Modelled from the spec: sealing atomically appends a chunk carrying the
next sequence number; a crash or a restart loses only unsealed buffered
audio, never a sealed chunk, and never persists a partial chunk. -/
def applySessionOp (s : SessionState) (op : SessionOp) : SessionState :=
  match op with
  | SessionOp.seal =>
    { sealedSeqs := s.sealedSeqs ++ [s.sealedSeqs.length], capturing := true }
  | SessionOp.crash => { sealedSeqs := s.sealedSeqs, capturing := false }
  | SessionOp.restart => { sealedSeqs := s.sealedSeqs, capturing := false }

/-- The empty session before any sealing. -/
def initialSessionState : SessionState :=
  { sealedSeqs := [], capturing := false }

/-- The session store after any interleaving of seal, crash and restart. -/
def runSession (ops : List SessionOp) : SessionState :=
  ops.foldl applySessionOp initialSessionState

/- ── Helper lemmas ──────────────────────────────────────────────────── -/

/-- The DOM serialization of one character agrees with the amended claim
replacement, which lists the same four substitutions in another order. -/
theorem escapeHtmlChar_eq_amended (c : Char) :
    escapeHtmlChar c = amendedEscapeChar c := by
  by_cases h1 : c = '&'
  · subst h1; decide
  · by_cases h2 : c = Char.ofNat 160
    · subst h2; decide
    · by_cases h3 : c = '<'
      · subst h3; decide
      · by_cases h4 : c = '>'
        · subst h4; decide
        · simp [escapeHtmlChar, amendedEscapeChar, h1, h2, h3, h4]

/-- A positive contains test on a list of strings gives membership. -/
theorem mem_of_contains {l : List String} {a : String}
    (h : l.contains a = true) : a ∈ l := by
  simpa [List.contains, List.elem_eq_mem] using h

/-- The direction computed by applyTranslations is "rtl" exactly for the
language code "ar". -/
theorem rtl_dir_iff (c : String) :
    ((if RTL_LANGS.contains c then "rtl" else "ltr") : String) = "rtl" ↔ c = "ar" := by
  by_cases h : c = "ar"
  · subst h; decide
  · have hc : RTL_LANGS.contains c = false := by
      simp [RTL_LANGS, List.contains_cons, List.contains, List.elem_nil]
      exact fun hx => h hx
    rw [hc]
    simp only [Bool.false_eq_true, if_false]
    exact ⟨fun hx => absurd hx (by decide), fun hx => absurd hx h⟩

/-- The current language after setLanguage is the argument when supported,
else "en". -/
theorem setLanguage_currentLang (lang : String) (s : I18nState) :
    (setLanguage lang s).currentLang =
      (if SUPPORTED_LANGS.contains lang then lang else "en") := rfl

/-- The document direction after setLanguage. -/
theorem setLanguage_docDir (lang : String) (s : I18nState) :
    (setLanguage lang s).docDir =
      (if RTL_LANGS.contains ((if SUPPORTED_LANGS.contains lang then lang else "en") : String)
       then "rtl" else "ltr") := rfl

/-- Every call of setLanguage establishes the language invariant. -/
theorem setLanguage_invariant (lang : String) (s : I18nState) :
    langInvariant (setLanguage lang s) := by
  constructor
  · rw [setLanguage_currentLang]
    by_cases hc : SUPPORTED_LANGS.contains lang = true
    · rw [if_pos hc]; exact mem_of_contains hc
    · rw [if_neg hc]; decide
  · rw [setLanguage_docDir, setLanguage_currentLang]
    exact rtl_dir_iff _

/- ── Claim theorems ─────────────────────────────────────────────────── -/

/-- C8, counterexample.  On the string consisting of one U+00A0 NO-BREAK
SPACE character, escapeHtml returns "&nbsp;", while the claim predicts the
input unchanged, since U+00A0 is none of the three characters the claim
lists. -/
theorem c8_escape_html_counterexample :
    escapeHtml (some "\u00A0") = "&nbsp;" ∧ claimEscape "\u00A0" = "\u00A0" ∧
      escapeHtml (some "\u00A0") ≠ claimEscape "\u00A0" := by decide

/-- C8, amended.  For the falsy inputs undefined, null and the empty
string, escapeHtml returns the empty string; on every string it performs
exactly the character replacements of the claim plus the replacement of
U+00A0 NO-BREAK SPACE by "&nbsp;", leaving both quote characters
unchanged. -/
theorem c8_escape_html_amended :
    escapeHtml none = "" ∧ escapeHtml (some "") = "" ∧
      ∀ s : String, escapeHtml (some s) = amendedEscape s := by
  refine ⟨rfl, rfl, ?_⟩
  intro s
  show (if s = "" then "" else serializeTextNode s) = amendedEscape s
  by_cases h : s = ""
  · subst h; rfl
  · rw [if_neg h]
    show String.join (s.data.map escapeHtmlChar) = String.join (s.data.map amendedEscapeChar)
    rw [funext escapeHtmlChar_eq_amended]

/-- C9.  A fetch event whose request URL pathname starts with "/api/" is
handled by the early-return branch: the service worker neither responds
from the cache nor stores anything into it, and the request passes through
to the network untouched. -/
theorem c9_api_requests_bypass_cache (r : FetchRequest)
    (h : strStartsWith r.pathname "/api/" = true) :
    handleFetch r = FetchDecision.passthrough ∧
      readsCache (handleFetch r) = false ∧ writesCache (handleFetch r) = false := by
  have hh : handleFetch r = FetchDecision.passthrough := by
    simp [handleFetch, h]
  exact ⟨hh, by rw [hh]; rfl, by rw [hh]; rfl⟩

/-- C9, witness at the chunk-upload endpoint pathname. -/
theorem c9_api_requests_bypass_cache_witness :
    strStartsWith "/api/session/s1/chunk" "/api/" = true ∧
      (handleFetch { pathname := "/api/session/s1/chunk", mode := "cors" } = FetchDecision.passthrough ∧
        readsCache (handleFetch { pathname := "/api/session/s1/chunk", mode := "cors" }) = false ∧
        writesCache (handleFetch { pathname := "/api/session/s1/chunk", mode := "cors" }) = false) :=
  ⟨by decide,
    c9_api_requests_bypass_cache { pathname := "/api/session/s1/chunk", mode := "cors" } (by decide)⟩

/-- C10.  After any call of setLanguage the current language is one of the
five supported codes, an unsupported argument is mapped to "en", and the
document direction is "rtl" exactly when the current language is "ar"; the
completed auto-init establishes the same invariant for every saved value
and every browser language, and the first two conjuncts show every
subsequent switch preserves it. -/
theorem c10_language_invariant :
    ∀ (lang : String) (s : I18nState),
      langInvariant (setLanguage lang s) ∧
      (setLanguage lang s).currentLang =
        (if SUPPORTED_LANGS.contains lang then lang else "en") ∧
      ∀ (saved navLanguage : Option String),
        langInvariant (autoInit saved navLanguage s) :=
  fun lang s =>
    ⟨setLanguage_invariant lang s, setLanguage_currentLang lang s,
      fun saved navLanguage => setLanguage_invariant (getPreferredLang saved navLanguage) s⟩

/-- The loop attempts one request per snapshot record, in snapshot order,
independent of the outcomes. -/
theorem processQueueItems_fst (respond : UploadRequest → Option UploadResponse) :
    ∀ (items db : List QueueItem),
      (processQueueItems respond items db).1 = items.map buildUploadRequest := by
  intro items
  induction items with
  | nil => intro db; rfl
  | cons item rest ih => intro db; simp [processQueueItems, ih]

/-- The final store contents after the loop: every record whose key is
among the keys of ok-answered snapshot records is deleted, every other
record survives untouched. -/
theorem processQueueItems_snd (respond : UploadRequest → Option UploadResponse) :
    ∀ (items db : List QueueItem),
      (processQueueItems respond items db).2 =
        db.filter (fun e => !((okIds respond items).contains e.id)) := by
  intro items
  induction items with
  | nil =>
    intro db
    simp [processQueueItems, okIds, List.contains, List.elem_nil, List.filter_true]
  | cons item rest ih =>
    intro db
    by_cases hok : attemptOk respond item = true
    · calc (processQueueItems respond (item :: rest) db).2
          = (processQueueItems respond rest (deleteById db item.id)).2 := by
            simp [processQueueItems, hok]
        _ = (db.filter (fun e => e.id != item.id)).filter
              (fun e => !((okIds respond rest).contains e.id)) := by
            rw [ih]; rfl
        _ = db.filter (fun e => (!((okIds respond rest).contains e.id)) && (e.id != item.id)) :=
            List.filter_filter _ _
        _ = db.filter (fun e => !((okIds respond (item :: rest)).contains e.id)) := by
            apply List.filter_congr
            intro e he
            simp [okIds, List.filter_cons, hok, List.contains_cons, Bool.not_or,
              Bool.and_comm, bne]
    · have hrw : (processQueueItems respond (item :: rest) db).2 =
          (processQueueItems respond rest db).2 := by
        simp [processQueueItems, hok]
      rw [hrw, ih]
      apply List.filter_congr
      intro e he
      simp [okIds, List.filter_cons, hok]

/-- Under distinct store keys, the contains test on the ok keys agrees with
the attempt outcome of the record itself. -/
theorem contains_okIds_eq (respond : UploadRequest → Option UploadResponse)
    (db : List QueueItem) (hnd : (db.map QueueItem.id).Nodup)
    {e : QueueItem} (he : e ∈ db) :
    (okIds respond db).contains e.id = attemptOk respond e := by
  by_cases hmem : e.id ∈ okIds respond db
  · have hc : (okIds respond db).contains e.id = true := by
      simpa [List.contains, List.elem_eq_mem] using hmem
    obtain ⟨x, hxf, hxid⟩ := List.mem_map.mp hmem
    have hx := List.mem_filter.mp hxf
    have hxe : x = e := List.inj_on_of_nodup_map hnd hx.1 he hxid
    rw [hc]
    exact (hxe ▸ hx.2).symm
  · have hc : (okIds respond db).contains e.id = false := by
      simp [List.contains, List.elem_eq_mem, hmem]
    rw [hc]
    cases hatt : attemptOk respond e with
    | false => rfl
    | true =>
      exact absurd (List.mem_map.mpr ⟨e, List.mem_filter.mpr ⟨he, hatt⟩, rfl⟩) hmem

/-- Under distinct store keys, one run of uploadQueuedChunks keeps exactly
the records whose upload attempt did not come back ok. -/
theorem upload_eq_filter (respond : UploadRequest → Option UploadResponse)
    (db : List QueueItem) (hnd : (db.map QueueItem.id).Nodup) :
    uploadQueuedChunks respond db = db.filter (fun e => !(attemptOk respond e)) := by
  show (processQueueItems respond db db).2 = _
  rw [processQueueItems_snd respond db db]
  apply List.filter_congr
  intro e he
  rw [contains_okIds_eq respond db hnd he]

/-- One run of uploadQueuedChunks keeps the store keys distinct. -/
theorem upload_nodup (respond : UploadRequest → Option UploadResponse)
    (db : List QueueItem) (hnd : (db.map QueueItem.id).Nodup) :
    ((uploadQueuedChunks respond db).map QueueItem.id).Nodup := by
  have h1 : uploadQueuedChunks respond db =
      db.filter (fun e => !((okIds respond db).contains e.id)) :=
    processQueueItems_snd respond db db
  rw [h1]
  exact List.Nodup.sublist (List.Sublist.map QueueItem.id (List.filter_sublist db)) hnd

/-- A record whose attempt fails in every round survives every round. -/
theorem persist_across_rounds :
    ∀ (responds : List (UploadRequest → Option UploadResponse))
      (db : List QueueItem) (item : QueueItem),
      (db.map QueueItem.id).Nodup → item ∈ db →
      (∀ f ∈ responds, attemptOk f item = false) →
      item ∈ runSyncRounds responds db := by
  intro responds
  induction responds with
  | nil => intro db item _ hin _; simpa [runSyncRounds] using hin
  | cons f fs ih =>
    intro db item hnd hin hfail
    have hf : attemptOk f item = false := hfail f (List.mem_cons_self _ _)
    have hmem : item ∈ uploadQueuedChunks f db := by
      rw [upload_eq_filter f db hnd]
      exact List.mem_filter.mpr ⟨hin, by simp [hf]⟩
    have hrest := ih (uploadQueuedChunks f db) item (upload_nodup f db hnd) hmem
      (fun g hg => hfail g (List.mem_cons_of_mem _ hg))
    simpa [runSyncRounds] using hrest

/-- C2, counterexample.  A queue entry is removed after a bare HTTP 200
response that carries no acknowledgment at all, neither a session id nor a
sequence number: the mere 200 suffices for removal. -/
theorem c2_removal_requires_ack_counterexample :
    uploadQueuedChunks respond200 [itemA] = [] ∧
      respond200 (buildUploadRequest itemA) =
        some { status := 200, ackSessionId := none, ackSeq := none } := by decide

/-- C2, amended.  A queue entry is removed exactly when the fetch for its
request resolves with an ok status (200 to 299); the service worker reads
nothing else of the response, so no acknowledgment keyed by session id and
sequence number is required for removal. -/
theorem c2_removed_iff_http_ok (respond : UploadRequest → Option UploadResponse)
    (db : List QueueItem) (hnd : (db.map QueueItem.id).Nodup) :
    uploadQueuedChunks respond db = db.filter (fun e => !(attemptOk respond e)) ∧
      ∀ e ∈ db, (e ∈ uploadQueuedChunks respond db ↔ attemptOk respond e = false) := by
  have h := upload_eq_filter respond db hnd
  refine ⟨h, ?_⟩
  intro e he
  rw [h, List.mem_filter]
  constructor
  · rintro ⟨-, hp⟩
    simpa using hp
  · intro hf
    exact ⟨he, by simp [hf]⟩

/-- C2, witness at a one-record store and the bare-200 environment. -/
theorem c2_removed_iff_http_ok_witness :
    (([itemA].map QueueItem.id).Nodup) ∧
      (uploadQueuedChunks respond200 [itemA] =
          [itemA].filter (fun e => !(attemptOk respond200 e)) ∧
        ∀ e ∈ [itemA],
          (e ∈ uploadQueuedChunks respond200 [itemA] ↔ attemptOk respond200 e = false)) :=
  ⟨by decide, c2_removed_iff_http_ok respond200 [itemA] (by decide)⟩

/-- C3, counterexample.  Two queue records with different sequence numbers
and different checksums produce literally identical upload requests, so the
request does not carry the (sessionId, sequence, checksum) idempotency
key. -/
theorem c3_idempotency_key_counterexample :
    buildUploadRequest itemA = buildUploadRequest itemB ∧
      itemA.seq ≠ itemB.seq ∧ itemA.checksum ≠ itemB.checksum := by decide

/-- C3, amended.  An upload request consists of the POST method, the URL
path holding only the session UUID, the bearer token and the audio blob
with its filename; neither the sequence number nor the checksum enters the
request, so records differing only in those fields are indistinguishable on
the wire. -/
theorem c3_request_contents (a b : QueueItem)
    (h1 : a.sessionUuid = b.sessionUuid) (h2 : a.blob = b.blob)
    (h3 : a.filename = b.filename) (h4 : a.token = b.token) :
    buildUploadRequest a =
      { method := "POST"
      , urlPath := "/api/session/" ++ a.sessionUuid ++ "/chunk"
      , bearerToken := a.token
      , formAudioBlob := a.blob
      , formAudioFilename := a.filename } ∧
      buildUploadRequest a = buildUploadRequest b := by
  refine ⟨rfl, ?_⟩
  simp [buildUploadRequest, h1, h2, h3, h4]

/-- C3, witness at the two concrete records of the counterexample. -/
theorem c3_request_contents_witness :
    (itemA.sessionUuid = itemB.sessionUuid ∧ itemA.blob = itemB.blob ∧
      itemA.filename = itemB.filename ∧ itemA.token = itemB.token) ∧
      (buildUploadRequest itemA =
        { method := "POST"
        , urlPath := "/api/session/" ++ itemA.sessionUuid ++ "/chunk"
        , bearerToken := itemA.token
        , formAudioBlob := itemA.blob
        , formAudioFilename := itemA.filename } ∧
        buildUploadRequest itemA = buildUploadRequest itemB) :=
  ⟨⟨rfl, rfl, rfl, rfl⟩, c3_request_contents itemA itemB rfl rfl rfl rfl⟩

/-- C5.  The loop attempts the snapshot records in store-key order, and
when, per session, store keys are assigned in sequence order (the enqueue
path, modelled from the spec, enqueues each chunk when it is sealed, with
an auto-incremented key), any two records of one session are attempted in
increasing sequence-number order. -/
theorem c5_fifo_per_session (respond : UploadRequest → Option UploadResponse)
    (db : List QueueItem)
    (hsorted : db.Pairwise (fun a b => a.id < b.id))
    (halign : ∀ a ∈ db, ∀ b ∈ db, a.sessionUuid = b.sessionUuid →
      (a.id < b.id ↔ a.seq < b.seq)) :
    uploadAttempts respond db = db.map buildUploadRequest ∧
      db.Pairwise (fun a b => a.sessionUuid = b.sessionUuid → a.seq < b.seq) := by
  refine ⟨processQueueItems_fst respond db db, ?_⟩
  exact List.Pairwise.imp_of_mem
    (fun ha hb hid hsess => (halign _ ha _ hb hsess).mp hid) hsorted

/-- C5, witness at a two-record store of one session. -/
theorem c5_fifo_per_session_witness :
    (([itemA, itemC].Pairwise (fun a b => a.id < b.id)) ∧
      ∀ a ∈ [itemA, itemC], ∀ b ∈ [itemA, itemC], a.sessionUuid = b.sessionUuid →
        (a.id < b.id ↔ a.seq < b.seq)) ∧
      (uploadAttempts respond500 [itemA, itemC] = [itemA, itemC].map buildUploadRequest ∧
        [itemA, itemC].Pairwise (fun a b => a.sessionUuid = b.sessionUuid → a.seq < b.seq)) :=
  ⟨⟨by decide, by decide⟩,
    c5_fifo_per_session respond500 [itemA, itemC] (by decide) (by decide)⟩

/-- C6.  A record whose upload attempt fails, by network error or non-ok
response, stays in the store as the very same record, through arbitrarily
many drain rounds with failing attempts; and a record disappears only when
one of its attempts resolved ok. -/
theorem c6_failed_entries_persist
    (responds : List (UploadRequest → Option UploadResponse))
    (db : List QueueItem) (item : QueueItem)
    (hnd : (db.map QueueItem.id).Nodup) (hin : item ∈ db) :
    ((∀ f ∈ responds, attemptOk f item = false) → item ∈ runSyncRounds responds db) ∧
      ∀ respond, item ∉ uploadQueuedChunks respond db → attemptOk respond item = true := by
  constructor
  · intro hfail
    exact persist_across_rounds responds db item hnd hin hfail
  · intro respond hnot
    cases hatt : attemptOk respond item with
    | true => rfl
    | false =>
      exfalso
      apply hnot
      rw [upload_eq_filter respond db hnd]
      exact List.mem_filter.mpr ⟨hin, by simp [hatt]⟩

/-- C6, witness: a record survives two drain rounds of HTTP 500. -/
theorem c6_failed_entries_persist_witness :
    ((([itemA].map QueueItem.id).Nodup) ∧ itemA ∈ [itemA]) ∧
      itemA ∈ runSyncRounds [respond500, respond500] [itemA] :=
  ⟨⟨by decide, by decide⟩,
    (c6_failed_entries_persist [respond500, respond500] [itemA] itemA
      (by decide) (by decide)).1 (by decide)⟩

/-- C7, counterexample.  With a persisted record of sequence number 3 and a
remote endpoint whose highest confirmed sequence number for the session is
5, the service worker attempts the record anyway, while the reconciliation
the claim describes would re-enqueue nothing: the code queries no remote
state and the attempted set differs from the claimed one. -/
theorem c7_reconciliation_counterexample :
    buildUploadRequest itemS3 ∈ uploadAttempts respond500 [itemS3] ∧
      specReenqueue [itemS3] (some 5) = [] := by decide

/-- C7, amended.  On restart the service worker performs no query of the
remote endpoint: it re-attempts exactly the records still persisted in the
offline queue, in store order, whatever the remote confirmed state is; this
coincides with the spec reconciliation only in the case where nothing is
confirmed remotely. -/
theorem c7_restart_retries_persisted_queue
    (respond : UploadRequest → Option UploadResponse) (db : List QueueItem) :
    uploadAttempts respond db = db.map buildUploadRequest ∧
      specReenqueue db none = db :=
  ⟨processQueueItems_fst respond db db, rfl⟩

/-- Invariant of the capture model: the elapsed time splits into the sealed
total plus the buffer, and the buffer always holds less than one chunk
duration. -/
theorem recordFor_inv (d : Nat) (hd : 0 < d) :
    ∀ t, (recordFor d t).elapsed = t ∧
      sealedDuration (recordFor d t) + (recordFor d t).buffered = t ∧
      (recordFor d t).buffered < d := by
  intro t
  induction t with
  | zero => exact ⟨rfl, rfl, hd⟩
  | succ t ih =>
    obtain ⟨h1, h2, h3⟩ := ih
    simp only [sealedDuration] at h2
    by_cases hb : (recordFor d t).buffered + 1 = d
    · simp only [recordFor, chunkTick, hb, if_pos, sealedDuration,
        List.sum_append, List.sum_cons, List.sum_nil]
      refine ⟨?_, ?_, ?_⟩ <;> omega
    · simp only [recordFor, chunkTick, hb, if_false, sealedDuration]
      refine ⟨?_, ?_, ?_⟩ <;> omega

/-- C1.  For every positive chunk duration and every termination instant,
the audio sealed to durable storage, which is all that survives killing the
capture process, is at least the elapsed recording time minus one chunk
duration. -/
theorem c1_kill_loss_bound (d t : Nat) (hd : 0 < d) :
    (recordFor d t).elapsed - d ≤ sealedDuration (recordFor d t) := by
  obtain ⟨h1, h2, h3⟩ := recordFor_inv d hd t
  omega

/-- C1, witness: 7 seconds of recording at a 3-second chunk duration. -/
theorem c1_kill_loss_bound_witness :
    0 < 3 ∧ (recordFor 3 7).elapsed - 3 ≤ sealedDuration (recordFor 3 7) :=
  ⟨by decide, c1_kill_loss_bound 3 7 (by decide)⟩

/-- Any interleaving of operations keeps the sealed sequence numbers an
initial range of the naturals. -/
theorem runSession_inv :
    ∀ (ops : List SessionOp) (s : SessionState),
      (∃ n, s.sealedSeqs = List.range n) →
      ∃ n, (ops.foldl applySessionOp s).sealedSeqs = List.range n := by
  intro ops
  induction ops with
  | nil => intro s h; simpa using h
  | cons op rest ih =>
    intro s h
    obtain ⟨n, hn⟩ := h
    rw [List.foldl_cons]
    apply ih
    cases op
    · refine ⟨n + 1, ?_⟩
      show s.sealedSeqs ++ [s.sealedSeqs.length] = List.range (n + 1)
      rw [hn, List.length_range]
      exact (List.range_succ n).symm
    · exact ⟨n, hn⟩
    · exact ⟨n, hn⟩

/-- C4.  After every interleaving of seal, crash and restart operations the
sealed chunk sequence numbers of the session form the contiguous range
starting at 0 with no gaps. -/
theorem c4_sealed_seqs_contiguous (ops : List SessionOp) :
    (runSession ops).sealedSeqs = List.range (runSession ops).sealedSeqs.length := by
  obtain ⟨n, h⟩ := runSession_inv ops initialSessionState ⟨0, rfl⟩
  show (ops.foldl applySessionOp initialSessionState).sealedSeqs =
    List.range (ops.foldl applySessionOp initialSessionState).sealedSeqs.length
  rw [h, List.length_range]
